import Mathlib

namespace NewsWM

/-!
Shallow embedding of the newsWM scraper repository
(crhoy_scraper.py, db_writer.py, crhoy_range_date_save_db.py, main.py).

Python strings are Lean String values.  External collaborators are modelled
as explicit inputs: a Page structure holds the outcome of each DOM query that
_safe_scrape_single_article performs, an HTTP response is a status code plus
a body, and the Supabase articles table is modelled by the list of url values
of its rows, the only column the embedded code ever reads back.
-/

/-! ### Python string primitives -/

/-- Whitespace characters recognised by Python str.strip, str.split and the
regex class \s on the ASCII inputs handled by this repository. -/
def isPySpace (c : Char) : Bool :=
  c = ' ' || c = '\t' || c = '\n' || c = '\r' || c = '\x0b' || c = '\x0c'

/-- Regex class \w (letters, digits, underscore) on ASCII input. -/
def isWordChar (c : Char) : Bool := c.isAlphanum || c = '_'

/-- Regex class \d. -/
def isDigitChar (c : Char) : Bool := c.isDigit

/-- Python str.strip with no arguments: drop whitespace at both ends. -/
def pyStrip (s : String) : String :=
  String.mk (((s.data.dropWhile isPySpace).reverse.dropWhile isPySpace).reverse)

/-- Python str.split with no arguments: split on whitespace runs, dropping
empties; structural worker over the characters. -/
def pySplitGo : List Char → List Char → List String
  | [], cur => if cur.isEmpty then [] else [String.mk cur.reverse]
  | c :: rest, cur =>
    if isPySpace c then
      if cur.isEmpty then pySplitGo rest []
      else String.mk cur.reverse :: pySplitGo rest []
    else pySplitGo rest (c :: cur)

/-- Python str.split with no arguments. -/
def pySplit (s : String) : List String := pySplitGo s.data []

/-- Python str.lower on the ASCII inputs in play. -/
def pyLower (s : String) : String := String.mk (s.data.map Char.toLower)

/-- Membership test of a substring, the Python `sub in s` operator. -/
def containsSub : List Char → List Char → Bool
  | [], sub => sub.isEmpty
  | c :: t, sub => sub.isPrefixOf (c :: t) || containsSub t sub

/-- Python `sub in s` on String values. -/
def strContainsStr (s sub : String) : Bool := containsSub s.data sub.data

/-- Core of Python str.replace: replace every occurrence, left to right.
The fuel argument, instantiated with the text length, keeps the recursion
structural; every step consumes at least one character, so the fuel never
runs out on the instantiating call. -/
def replaceListGo (old new : List Char) : Nat → List Char → List Char
  | 0, s => s
  | _ + 1, [] => []
  | f + 1, c :: rest =>
    if old ≠ [] ∧ old.isPrefixOf (c :: rest) then
      new ++ replaceListGo old new f ((c :: rest).drop old.length)
    else
      c :: replaceListGo old new f rest

/-- Replace every occurrence of old by new. -/
def replaceList (old new s : List Char) : List Char :=
  replaceListGo old new s.length s

/-- Python str.replace on String values. -/
def pyReplace (s old new : String) : String :=
  String.mk (replaceList old.data new.data s.data)

/-- Split on a separator character, keeping empties, as Python str.split
with an explicit separator does. -/
def splitCharGo (sep : Char) : List Char → List Char → List String
  | [], cur => [String.mk cur.reverse]
  | c :: rest, cur =>
    if c = sep then String.mk cur.reverse :: splitCharGo sep rest []
    else splitCharGo sep rest (c :: cur)

/-- Python str.splitlines restricted to newline separators, as produced by the
sitemap text handled in get_crhoy_articles_with_driver (the text is stripped
first, so no trailing separator is present). -/
def pySplitlines (s : String) : List String :=
  if s = "" then [] else splitCharGo '\n' s.data []

/-- Python "sep".join(pieces). -/
def joinSep (sep : String) : List String → String
  | [] => ""
  | [x] => x
  | x :: y :: xs => x ++ sep ++ joinSep sep (y :: xs)

/-- Python str.isalpha: non-empty and every character alphabetic. -/
def pyIsAlpha (s : String) : Bool := s ≠ "" && s.data.all Char.isAlpha

/-- Python str.title restricted to ASCII: uppercase every letter that follows
a non-letter, lowercase the others. -/
def pyTitleGo : List Char → Bool → List Char
  | [], _ => []
  | c :: t, prevAlpha =>
    if c.isAlpha then
      (if prevAlpha then c.toLower else c.toUpper) :: pyTitleGo t true
    else
      c :: pyTitleGo t false

/-- Python str.title on String values. -/
def pyTitle (s : String) : String := String.mk (pyTitleGo s.data false)

/-- Python str slice s[:n]. -/
def pyTake (s : String) (n : Nat) : String := String.mk (s.data.take n)

/-- Decimal digits to a natural number, the Python int(...) call on the digit
strings captured by the date regexes. -/
def digitsToNat (s : String) : Nat :=
  s.data.foldl (fun n c => n * 10 + (c.toNat - 48)) 0

/-- Zero-padded two-digit rendering, as in datetime.isoformat. -/
def pad2 (n : Nat) : String :=
  if n < 10 then "0" ++ toString n else toString n

/-- Zero-padded four-digit rendering of the year, as in datetime.isoformat. -/
def pad4 (n : Nat) : String :=
  if n < 10 then "000" ++ toString n
  else if n < 100 then "00" ++ toString n
  else if n < 1000 then "0" ++ toString n
  else toString n

/-! ### A small regex engine

The date code of the repository uses re.search with six fixed patterns and
datetime.strptime with fixed formats.  Every construct those patterns use is
one of: a literal character, a greedy bounded repetition of a character
class, or an alternation of literal strings.  The engine below implements
exactly these, in continuation-passing style so that greedy backtracking as
in Python re is obtained while every recursion stays structural. -/

/-- One element of a compiled pattern. -/
inductive RItem where
  /-- A literal character. -/
  | lit : Char → RItem
  /-- Greedy repetition of a character class: predicate, minimum count,
  maximum count (none = unbounded), optional capture group index. -/
  | cls : (Char → Bool) → Nat → Option Nat → Option Nat → RItem
  /-- Alternation of literal strings, compared case-insensitively (the
  search text is lowercased by the callers; strptime month and am/pm names
  match case-insensitively).  Captures the canonical alternative. -/
  | alts : List String → Nat → RItem

/-- Length of the longest run of class characters at the head of the text. -/
def clsCount (p : Char → Bool) : List Char → Nat
  | [] => 0
  | c :: rest => if p c then clsCount p rest + 1 else 0

/-- Case-insensitive comparison of an alternative against the head of the
text. -/
def lowerEqTake (s : String) (cs : List Char) : Bool :=
  let sl := s.data.map Char.toLower
  let pre := cs.take sl.length
  pre.length = sl.length && pre.map Char.toLower = sl

/-- The continuations threaded through the matcher: remainder and captures
so far to the overall result. -/
abbrev MatchCont : Type :=
  List Char → List (Nat × String) → Option (List (Nat × String) × List Char)

/-- Record a capture of the first n characters of the text. -/
def capAdd (g : Option Nat) (n : Nat) (cs : List Char)
    (caps : List (Nat × String)) : List (Nat × String) :=
  match g with
  | some i => caps ++ [(i, String.mk (cs.take n))]
  | none => caps

/-- Greedy repetition loop: try consuming n characters first and back off
one at a time down to the minimum, running the continuation (the rest of the
pattern) on each remainder. -/
def clsLoop (g : Option Nat) (lo : Nat) (k : MatchCont) (cs : List Char)
    (caps : List (Nat × String)) :
    Nat → Option (List (Nat × String) × List Char)
  | 0 =>
    if 0 < lo then none
    else k cs (capAdd g 0 cs caps)
  | n + 1 =>
    if n + 1 < lo then none
    else
      match k (cs.drop (n + 1)) (capAdd g (n + 1) cs caps) with
      | some r => some r
      | none => clsLoop g lo k cs caps n

/-- Alternation loop over the literal alternatives, in order. -/
def altsLoop (g : Nat) (k : MatchCont) (cs : List Char)
    (caps : List (Nat × String)) :
    List String → Option (List (Nat × String) × List Char)
  | [] => none
  | alt :: ss =>
    if lowerEqTake alt cs then
      match k (cs.drop alt.data.length) (caps ++ [(g, alt)]) with
      | some r => some r
      | none => altsLoop g k cs caps ss
    else altsLoop g k cs caps ss

/-- Run a pattern against the text in continuation style. -/
def runItems : List RItem → MatchCont → MatchCont
  | [], k, cs, caps => k cs caps
  | .lit c :: rest, k, cs, caps =>
    match cs with
    | [] => none
    | c0 :: cs2 => if c0 = c then runItems rest k cs2 caps else none
  | .cls p lo hi g :: rest, k, cs, caps =>
    let maxTake :=
      match hi with
      | none => clsCount p cs
      | some h => min (clsCount p cs) h
    clsLoop g lo (runItems rest k) cs caps maxTake
  | .alts ss g :: rest, k, cs, caps => altsLoop g (runItems rest k) cs caps ss

/-- Match a pattern at the start of the text, returning the captures and the
unconsumed remainder of the leftmost-greedy match. -/
def matchItems (items : List RItem) (cs : List Char) :
    Option (List (Nat × String) × List Char) :=
  runItems items (fun cs2 caps2 => some (caps2, cs2)) cs []

/-- Python re.search: try a match at every position, leftmost first.  Only
the captures are needed by the callers. -/
def reSearch (items : List RItem) : List Char → Option (List (Nat × String))
  | [] =>
    match matchItems items [] with
    | some (caps, _) => some caps
    | none => none
  | c :: rest =>
    match matchItems items (c :: rest) with
    | some (caps, _) => some caps
    | none => reSearch items rest

/-- Value of a capture group after a successful match. -/
def capGet (caps : List (Nat × String)) (i : Nat) : String :=
  match caps.find? (fun c => c.1 = i) with
  | some c => c.2
  | none => ""

/-! ### Dates: datetime validity and rendering -/

/-- Association-list lookup used for the month tables and category map. -/
def lookupStr {α : Type} (l : List (String × α)) (k : String) : Option α :=
  match l.find? (fun p => p.1 = k) with
  | some p => some p.2
  | none => none

/-- Gregorian leap-year rule, as in Python datetime. -/
def isLeapYear (y : Nat) : Bool :=
  y % 4 = 0 && (y % 100 ≠ 0 || y % 400 = 0)

/-- Days in a month, as validated by the Python datetime constructor. -/
def daysInMonth (y mo : Nat) : Nat :=
  if mo = 2 then (if isLeapYear y then 29 else 28)
  else if mo = 4 ∨ mo = 6 ∨ mo = 9 ∨ mo = 11 then 30
  else 31

/-- The Python datetime(year, month, day, hour, minute) constructor followed
by .isoformat(): none models the ValueError raised on out-of-range fields,
otherwise the naive ISO string with seconds zero. -/
def mkDatetimeIso (y mo d h mi : Nat) : Option String :=
  if 1 ≤ y ∧ y ≤ 9999 ∧ 1 ≤ mo ∧ mo ≤ 12 ∧ 1 ≤ d ∧ d ≤ daysInMonth y mo ∧
      h ≤ 23 ∧ mi ≤ 59 then
    some (pad4 y ++ "-" ++ pad2 mo ++ "-" ++ pad2 d ++ "T" ++ pad2 h ++ ":" ++
      pad2 mi ++ ":00")
  else none

/-! ### crhoy_scraper.py: __parse_spanish_date -/

/-- Month table of __parse_spanish_date (crhoy_scraper.py lines 33-37). -/
def spanish_months : List (String × Nat) :=
  [("enero", 1), ("febrero", 2), ("marzo", 3), ("abril", 4),
   ("mayo", 5), ("junio", 6), ("julio", 7), ("agosto", 8),
   ("septiembre", 9), ("octubre", 10), ("noviembre", 11), ("diciembre", 12)]

/-- The 12-hour to 24-hour conversion __parse_spanish_date applies to every
matched time (crhoy_scraper.py lines 67-71 and 83-87):
pm keeps 12 and adds 12 to every other hour, am maps 12 to 0 and keeps the
rest. -/
def to24Hour (hour : Nat) (ampm : String) : Nat :=
  if ampm = "pm" ∧ hour ≠ 12 then hour + 12
  else if ampm = "am" ∧ hour = 12 then 0
  else hour

/-- A compiled pattern: the source regex literal (used verbatim by the branch
dispatch of __parse_spanish_date, which tests the substrings "de", "-" and "/"
of the pattern string itself) together with its compiled items. -/
structure Pattern where
  src : String
  items : List RItem

/-- Shorthand for the compiled whitespace items. -/
def spPlus : RItem := .cls isPySpace 1 none none

/-- Zero-or-more whitespace. -/
def spStar : RItem := .cls isPySpace 0 none none

/-- The six patterns of __parse_spanish_date (crhoy_scraper.py lines 40-53),
in source order. -/
def datePatterns : List Pattern :=
  [ { src := "(\\w+)\\s+(\\d\x7b1,2\x7d),\\s+(\\d\x7b4\x7d)\\s+(\\d\x7b1,2\x7d):(\\d\x7b2\x7d)\\s*(am|pm)",
      items := [.cls isWordChar 1 none (some 1), spPlus,
        .cls isDigitChar 1 (some 2) (some 2), .lit ',', spPlus,
        .cls isDigitChar 4 (some 4) (some 3), spPlus,
        .cls isDigitChar 1 (some 2) (some 4), .lit ':',
        .cls isDigitChar 2 (some 2) (some 5), spStar,
        .alts ["am", "pm"] 6] },
    { src := "(\\d\x7b1,2\x7d)\\s+de\\s+(\\w+)\\s+de\\s+(\\d\x7b4\x7d),?\\s+(\\d\x7b1,2\x7d):(\\d\x7b2\x7d)\\s*(am|pm)",
      items := [.cls isDigitChar 1 (some 2) (some 1), spPlus,
        .lit 'd', .lit 'e', spPlus,
        .cls isWordChar 1 none (some 2), spPlus,
        .lit 'd', .lit 'e', spPlus,
        .cls isDigitChar 4 (some 4) (some 3),
        .cls (fun c => c = ',') 0 (some 1) none, spPlus,
        .cls isDigitChar 1 (some 2) (some 4), .lit ':',
        .cls isDigitChar 2 (some 2) (some 5), spStar,
        .alts ["am", "pm"] 6] },
    { src := "(\\w+)\\s+(\\d\x7b1,2\x7d),\\s+(\\d\x7b4\x7d)",
      items := [.cls isWordChar 1 none (some 1), spPlus,
        .cls isDigitChar 1 (some 2) (some 2), .lit ',', spPlus,
        .cls isDigitChar 4 (some 4) (some 3)] },
    { src := "(\\d\x7b1,2\x7d)\\s+de\\s+(\\w+)\\s+de\\s+(\\d\x7b4\x7d)",
      items := [.cls isDigitChar 1 (some 2) (some 1), spPlus,
        .lit 'd', .lit 'e', spPlus,
        .cls isWordChar 1 none (some 2), spPlus,
        .lit 'd', .lit 'e', spPlus,
        .cls isDigitChar 4 (some 4) (some 3)] },
    { src := "(\\d\x7b4\x7d)-(\\d\x7b2\x7d)-(\\d\x7b2\x7d)",
      items := [.cls isDigitChar 4 (some 4) (some 1), .lit '-',
        .cls isDigitChar 2 (some 2) (some 2), .lit '-',
        .cls isDigitChar 2 (some 2) (some 3)] },
    { src := "(\\d\x7b1,2\x7d)/(\\d\x7b1,2\x7d)/(\\d\x7b4\x7d)",
      items := [.cls isDigitChar 1 (some 2) (some 1), .lit '/',
        .cls isDigitChar 1 (some 2) (some 2), .lit '/',
        .cls isDigitChar 4 (some 4) (some 3)] } ]

/-- Group processing of one matched pattern (crhoy_scraper.py lines 58-105):
branch dispatch on the pattern string, month lookup, optional time with the
12-hour conversion, then the datetime constructor.  none models both the
month lookup miss and the caught ValueError, which make the caller try the
next pattern. -/
def processMatch (pat : Pattern) (caps : List (Nat × String)) : Option String :=
  let g := capGet caps
  if strContainsStr pat.src "de" then
    match lookupStr spanish_months (pyLower (g 2)) with
    | none => none
    | some month =>
      if 3 < caps.length then
        mkDatetimeIso (digitsToNat (g 3)) month (digitsToNat (g 1))
          (to24Hour (digitsToNat (g 4)) (g 6)) (digitsToNat (g 5))
      else
        mkDatetimeIso (digitsToNat (g 3)) month (digitsToNat (g 1)) 0 0
  else if pyIsAlpha (g 1) then
    match lookupStr spanish_months (pyLower (g 1)) with
    | none => none
    | some month =>
      if 3 < caps.length then
        mkDatetimeIso (digitsToNat (g 3)) month (digitsToNat (g 2))
          (to24Hour (digitsToNat (g 4)) (g 6)) (digitsToNat (g 5))
      else
        mkDatetimeIso (digitsToNat (g 3)) month (digitsToNat (g 2)) 0 0
  else if strContainsStr pat.src "-" then
    mkDatetimeIso (digitsToNat (g 1)) (digitsToNat (g 2)) (digitsToNat (g 3)) 0 0
  else if strContainsStr pat.src "/" then
    mkDatetimeIso (digitsToNat (g 3)) (digitsToNat (g 2)) (digitsToNat (g 1)) 0 0
  else none

/-- Try the patterns in order; a pattern that matches but whose processing
fails falls through to the next one, exactly as the for-loop with the caught
ValueError does. -/
def tryPatterns : List Pattern → String → Option String
  | [], _ => none
  | p :: rest, s =>
    match reSearch p.items s.data with
    | some caps =>
      match processMatch p caps with
      | some r => some r
      | none => tryPatterns rest s
    | none => tryPatterns rest s

/-- Embedding of __parse_spanish_date (crhoy_scraper.py lines 24-108): clean
the text, lowercase it, and try the six patterns in order.  The result is the
naive local datetime.isoformat() string; no timezone conversion happens on
this path. -/
def _parse_spanish_date (date_text : String) : Option String :=
  if date_text = "" then none
  else
    let cleaned := pyReplace (pyReplace (pyStrip date_text) "\u2003" " ") "\n" " "
    tryPatterns datePatterns (pyLower cleaned)

/-! ### crhoy_range_date_save_db.py: normalize_date -/

/-- Month replacement table (crhoy_range_date_save_db.py lines 22-26), in
insertion order. -/
def SPANISH_TO_ENGLISH : List (String × String) :=
  [("Enero", "January"), ("Febrero", "February"), ("Marzo", "March"),
   ("Abril", "April"), ("Mayo", "May"), ("Junio", "June"), ("Julio", "July"),
   ("Agosto", "August"), ("Septiembre", "September"), ("Octubre", "October"),
   ("Noviembre", "November"), ("Diciembre", "December")]

/-- English month names, as matched by the strptime directive for the full
month name. -/
def englishMonths : List String :=
  ["January", "February", "March", "April", "May", "June", "July",
   "August", "September", "October", "November", "December"]

/-- The first Spanish month name found in the text is replaced by its English
name, then the loop breaks (crhoy_range_date_save_db.py lines 58-61). -/
def monthReplace : List (String × String) → String → String
  | [], pd => pd
  | (sp, en) :: rest, pd =>
    if strContainsStr pd sp then pyReplace pd sp en else monthReplace rest pd

/-- Hour conversion performed by strptime for the 12-hour directive together
with the am/pm directive, as in the CPython _strptime module. -/
def strptimeHour24 (hour : Nat) (ampm : String) : Nat :=
  if pyLower ampm = "am" then (if hour = 12 then 0 else hour)
  else if pyLower ampm = "pm" then (if hour = 12 then 12 else hour + 12)
  else hour

/-- Compiled form of the strptime format string used by normalize_date: full
month name, day, comma, year, 12-hour time, am/pm marker.  Whitespace in the
format matches one or more whitespace characters. -/
def strptimeMonthItems : List RItem :=
  [.alts englishMonths 1, spPlus,
   .cls isDigitChar 1 (some 2) (some 2), .lit ',', spPlus,
   .cls isDigitChar 4 (some 4) (some 3), spPlus,
   .cls isDigitChar 1 (some 2) (some 4), .lit ':',
   .cls isDigitChar 1 (some 2) (some 5), spPlus,
   .alts ["am", "pm"] 6]

/-- Index of a month name in the English month table, one-based. -/
def monthIndex : List String → String → Nat → Option Nat
  | [], _, _ => none
  | m :: rest, name, i =>
    if pyLower m = pyLower name then some i else monthIndex rest name (i + 1)

/-- datetime.strptime with the fixed format of normalize_date.  The whole
input must be consumed; out-of-range fields model the ValueError raised by
the datetime constructor (and by the directives whose regex would not have
matched).  Returns year, month, day, 24-hour hour and minute. -/
def strptimeMonthFmt (s : String) : Option (Nat × Nat × Nat × Nat × Nat) :=
  match matchItems strptimeMonthItems s.data with
  | none => none
  | some (caps, rest) =>
    if rest ≠ [] then none
    else
      match monthIndex englishMonths (capGet caps 1) 1 with
      | none => none
      | some month =>
        let y := digitsToNat (capGet caps 3)
        let d := digitsToNat (capGet caps 2)
        let h12 := digitsToNat (capGet caps 4)
        let mi := digitsToNat (capGet caps 5)
        if 1 ≤ y ∧ 1 ≤ h12 ∧ h12 ≤ 12 ∧ mi ≤ 59 ∧ 1 ≤ d ∧
            d ≤ daysInMonth y month then
          some (y, month, d, strptimeHour24 h12 (capGet caps 6), mi)
        else none

/-- Adding timedelta(hours=6) to a datetime, rolling over at most one day. -/
def addHours6 (y mo d h : Nat) : Nat × Nat × Nat × Nat :=
  let h2 := h + 6
  if h2 ≤ 23 then (y, mo, d, h2)
  else
    let h3 := h2 - 24
    if d + 1 ≤ daysInMonth y mo then (y, mo, d + 1, h3)
    else if mo = 12 then (y + 1, 1, 1, h3)
    else (y, mo + 1, 1, h3)

/-- Embedding of normalize_date (crhoy_range_date_save_db.py lines 52-68):
replace the em space, translate the first Spanish month name found, parse
with strptime, add the fixed six-hour source-to-UTC offset, and render the
timezone-aware isoformat string.  none models the caught parse error. -/
def normalize_date (spanish_date : String) : Option String :=
  let pd := pyReplace spanish_date "\u2003" " "
  let pd := monthReplace SPANISH_TO_ENGLISH pd
  match strptimeMonthFmt pd with
  | none => none
  | some (y, mo, d, h, mi) =>
    match addHours6 y mo d h with
    | (y2, mo2, d2, h2) =>
      some (pad4 y2 ++ "-" ++ pad2 mo2 ++ "-" ++ pad2 d2 ++ "T" ++ pad2 h2 ++
        ":" ++ pad2 mi ++ ":00+00:00")

/-! ### The article record

One scraped article, the dictionary built at crhoy_scraper.py lines 451-464.
Absent optional fields are the empty string, as produced by the extraction
defaults and read back by the dict.get calls with default values. -/

structure Article where
  title : String
  subtitle : String
  content : String
  author : String
  author_email : String
  tags : List String
  published_date : String
  url : String
  source : String
  summary : String
  image_url : String
  category : String
deriving DecidableEq, Repr

/-! ### db_writer.py: the deduplicating persistence gate

The Supabase articles table is modelled by the list of url values of its
rows: the embedded code reads back only the url column (the existence check
selects by url), and a successful insert appends one row carrying the url of
the saved article.  Inserts themselves succeed in the model; the failure
paths that remain reachable are the validation failures. -/

/-- Embedding of DatabaseWriter.validate_article (db_writer.py lines 38-52):
title, content and url must be truthy and the content must have at least 10
whitespace-separated words. -/
def validate_article (article : Article) : Bool :=
  if article.title = "" ∨ article.content = "" ∨ article.url = "" then false
  else if (pySplit article.content).length < 10 then false
  else true

/-- Embedding of DatabaseWriter.save_article_to_supabase (db_writer.py lines
73-155): validate, then report success without inserting when a row with the
same url already exists, otherwise insert.  The schema-adaptation code only
shapes the non-url payload of the insert and is not represented in the
url-level store model.  Returns the Python boolean and the updated store. -/
def save_article_to_supabase (store : List String) (article : Article) :
    Bool × List String :=
  if validate_article article then
    if article.url ≠ "" ∧ article.url ∈ store then (true, store)
    else (true, store ++ [article.url])
  else (false, store)

/-- Batch counters returned by save_articles_batch (db_writer.py line 224). -/
structure BatchResults where
  success : Nat
  failed : Nat
  duplicates : Nat
  invalid : Nat
deriving DecidableEq, Repr

/-- Sum of the four counters. -/
def sumCounts (r : BatchResults) : Nat :=
  r.success + r.failed + r.duplicates + r.invalid

/-- One iteration of the batch loop (db_writer.py lines 232-251): an article
whose url already has a row is counted as a duplicate and skipped, otherwise
save_article_to_supabase decides between success and failed.  Nothing in the
loop increments the invalid counter. -/
def batchStep (acc : BatchResults × List String) (article : Article) :
    BatchResults × List String :=
  let results := acc.1
  let store := acc.2
  if article.url ≠ "" ∧ article.url ∈ store then
    ({ results with duplicates := results.duplicates + 1 }, store)
  else
    match save_article_to_supabase store article with
    | (true, store2) => ({ results with success := results.success + 1 }, store2)
    | (false, store2) => ({ results with failed := results.failed + 1 }, store2)

/-- The batch loop over the article list. -/
def batchGo : List Article → BatchResults × List String →
    BatchResults × List String
  | [], acc => acc
  | a :: rest, acc => batchGo rest (batchStep acc a)

/-- Embedding of DatabaseWriter.save_articles_batch (db_writer.py lines
214-254): counters start at zero (the empty-input early return coincides with
the empty loop) and the loop threads the store through every article. -/
def save_articles_batch (store : List String) (articles : List Article) :
    BatchResults × List String :=
  batchGo articles (⟨0, 0, 0, 0⟩, store)

/-! ### crhoy_scraper.py: the blocking detector -/

/-- An HTTP response as consumed by the blocking detector: status code and
decoded body text. -/
structure Response where
  status_code : Nat
  text : String
deriving DecidableEq, Repr

/-- requests.Response truthiness: bool(response) is response.ok, true exactly
when the status code is below 400.  The `if not response` guard at the top of
the detector evaluates this. -/
def respOk (r : Response) : Bool := r.status_code < 400

/-- Blocking vocabulary (crhoy_scraper.py lines 218-228), in source order. -/
def blocking_indicators : List String :=
  ["captcha", "blocked", "access denied", "too many requests", "rate limit",
   "cloudflare", "security check", "unusual traffic", "bot detection"]

/-- Embedding of __is_blocked_response (crhoy_scraper.py lines 207-240):
falsy response, hard status codes, keyword scan over the lowercased body,
then the minimum-length heuristic on the stripped body. -/
def _is_blocked_response (r : Response) : Bool :=
  if ¬ respOk r then true
  else if r.status_code = 403 ∨ r.status_code = 429 ∨ r.status_code = 503 then true
  else if blocking_indicators.any (fun ind => strContainsStr (pyLower r.text) ind) then true
  else if (pyStrip r.text).length < 100 then true
  else false

/-! ### Python datetime.fromisoformat for the datetime-attribute date path -/

/-- Parse exactly n decimal digits. -/
def parseNDigits (n : Nat) (cs : List Char) : Option (Nat × List Char) :=
  let pre := cs.take n
  if pre.length = n ∧ pre.all isDigitChar then
    some (digitsToNat (String.mk pre), cs.drop n)
  else none

/-- Embedding of datetime.fromisoformat followed by .isoformat(), on the
shapes produced by DOM datetime attributes after the Z replacement:
YYYY-MM-DD, optionally a separator and HH:MM with optional :SS, optionally a
+HH:MM or -HH:MM offset.  none models the ValueError on anything else. -/
def fromisoformatIso (s : String) : Option String :=
  match parseNDigits 4 s.data with
  | none => none
  | some (y, r1) =>
    match r1 with
    | '-' :: r2 =>
      match parseNDigits 2 r2 with
      | none => none
      | some (mo, r3) =>
        match r3 with
        | '-' :: r4 =>
          match parseNDigits 2 r4 with
          | none => none
          | some (d, r5) =>
            if ¬ (1 ≤ y ∧ y ≤ 9999 ∧ 1 ≤ mo ∧ mo ≤ 12 ∧ 1 ≤ d ∧
                d ≤ daysInMonth y mo) then none
            else
              let datePart := pad4 y ++ "-" ++ pad2 mo ++ "-" ++ pad2 d
              match r5 with
              | [] => some (datePart ++ "T00:00:00")
              | _ :: r6 =>
                match parseNDigits 2 r6 with
                | none => none
                | some (h, r7) =>
                  match r7 with
                  | ':' :: r8 =>
                    match parseNDigits 2 r8 with
                    | none => none
                    | some (mi, r9) =>
                      let secPart :=
                        match r9 with
                        | ':' :: r10 => parseNDigits 2 r10
                        | _ => some (0, r9)
                      match secPart with
                      | none => none
                      | some (sec, r11) =>
                        if ¬ (h ≤ 23 ∧ mi ≤ 59 ∧ sec ≤ 59) then none
                        else
                          let timePart := pad2 h ++ ":" ++ pad2 mi ++ ":" ++ pad2 sec
                          match r11 with
                          | [] => some (datePart ++ "T" ++ timePart)
                          | sign :: r12 =>
                            if sign = '+' ∨ sign = '-' then
                              match parseNDigits 2 r12 with
                              | none => none
                              | some (oh, r13) =>
                                match r13 with
                                | ':' :: r14 =>
                                  match parseNDigits 2 r14 with
                                  | some (om, []) =>
                                    if oh ≤ 23 ∧ om ≤ 59 then
                                      some (datePart ++ "T" ++ timePart ++
                                        String.mk [sign] ++ pad2 oh ++ ":" ++ pad2 om)
                                    else none
                                  | _ => none
                                | _ => none
                            else none
                  | _ => none
        | _ => none
    | _ => none

/-! ### crhoy_scraper.py: the extraction pipeline

The Selenium driver and the rendered DOM are the external collaborator: a
Page records the outcome of every query _safe_scrape_single_article makes.
For element lookups, none models the swallowed exception of an absent
element; for attribute reads, none also covers get_attribute returning None.
-/

structure Page where
  /-- Outcome of _handle_potential_blocking. -/
  blocked : Bool
  /-- Text of the h1 element; none when the lookup raises. -/
  h1Text : Option String
  /-- Raw texts of the p elements under the contenido element; none when the
  wait for the contenido element raises. -/
  contenidoParas : Option (List String)
  /-- Text of the h2 element. -/
  h2Text : Option String
  /-- Title attribute and text of the link inside the autor-nota element
  (author strategy 1); none when either lookup raises. -/
  autorNotaLink : Option (Option String × String)
  /-- Text of the first element matching a CSS selector. -/
  css : String → Option String
  /-- Attribute of the first element matching a CSS selector; none when the
  element is absent or the attribute is None. -/
  cssAttr : String → String → Option String
  /-- Texts of all elements matching a CSS selector ([] when absent or when
  the lookup raises). -/
  cssAll : String → List String
  /-- Text of the element with class fecha-nota. -/
  fechaNota : Option String
  /-- Content attribute of the description meta tag. -/
  metaDescription : Option String
  /-- datetime.utcnow().isoformat() at capture time. -/
  nowIso : String

/-- The fallback-chain combinator shared by every multi-selector field of
_safe_scrape_single_article: each candidate is some value exactly when its
strategy located a result the loop would break on, none when the strategy
raised or produced an empty result; the chain returns the first hit and
never looks past it. -/
def strategyChain {α : Type} : List (Option α) → Option α
  | [] => none
  | none :: rest => strategyChain rest
  | some v :: _ => some v

/-- Author fallback selectors (crhoy_scraper.py lines 336-337). -/
def author_selectors : List String :=
  [".author-name", ".byline a", "[rel=\"author\"]", ".post-author",
   ".article-author", "span.autor-nota a", ".autor a", "p.autor a"]

/-- Author e-mail selectors (crhoy_scraper.py lines 349-350). -/
def email_selectors : List String :=
  ["span.autor-nota a[href^=\"mailto:\"]", ".autor-nota a[href*=\"@\"]",
   "a[href^=\"mailto:\"]", ".author-email"]

/-- Tag selectors (crhoy_scraper.py lines 364-365). -/
def tag_selectors : List String :=
  ["div.etiquetas a", ".tags a", ".post-tags a", ".article-tags a",
   ".categoria a", ".etiqueta"]

/-- Date fallback selectors (crhoy_scraper.py line 387). -/
def date_selectors : List String :=
  [".fecha-nota", ".date", ".post-date", "time", ".fecha"]

/-- Image selectors (crhoy_scraper.py line 421). -/
def img_selectors : List String :=
  [".featured-image img", ".post-image img", "article img", "#contenido img"]

/-- Category vocabulary (crhoy_scraper.py lines 439-443). -/
def category_mapping : List (String × String) :=
  [("nacionales", "Nacionales"), ("economia", "Economía"), ("mundo", "Mundo"),
   ("deportes", "Deportes"), ("tecnologia", "Tecnología"),
   ("entretenimiento", "Entretenimiento"), ("salud", "Salud"),
   ("opinion", "Opinión"), ("la-foto-del-dia", "La Foto del Día")]

/-- One author fallback strategy (crhoy_scraper.py lines 339-346): element
text stripped, or its title attribute; the loop breaks only on a truthy
author. -/
def authorCandidate (pg : Page) (sel : String) : Option String :=
  match pg.css sel with
  | none => none
  | some txt =>
    let a := if pyStrip txt ≠ "" then pyStrip txt else
      (match pg.cssAttr sel "title" with | some t => t | none => "")
    if a ≠ "" then some a else none

/-- One e-mail strategy (crhoy_scraper.py lines 352-360): the loop breaks
when the href attribute is truthy and contains mailto, taking the stripped
remainder after removing the mailto prefix text. -/
def emailCandidate (pg : Page) (sel : String) : Option String :=
  match pg.cssAttr sel "href" with
  | none => none
  | some href =>
    if href ≠ "" ∧ strContainsStr href "mailto:" then
      some (pyStrip (pyReplace href "mailto:" ""))
    else none

/-- One tag strategy (crhoy_scraper.py lines 367-375): the loop breaks when
elements are found and their stripped texts leave a non-empty list. -/
def tagsCandidate (pg : Page) (sel : String) : Option (List String) :=
  let elems := pg.cssAll sel
  if elems = [] then none
  else
    let ts := (elems.map pyStrip).filter (fun t => t ≠ "")
    if ts = [] then none else some ts

/-- One date fallback strategy (crhoy_scraper.py lines 389-407): a truthy
datetime attribute parsed with fromisoformat wins; otherwise a truthy text is
fed to the Spanish date parser; the loop breaks only on a parsed date. -/
def dateCandidate (pg : Page) (sel : String) : Option String :=
  match pg.css sel with
  | none => none
  | some raw =>
    let date_text := pyReplace (pyStrip raw) "\u2003" " "
    let fromAttr : Option String :=
      match pg.cssAttr sel "datetime" with
      | none => none
      | some attr =>
        if attr ≠ "" then fromisoformatIso (pyReplace attr "Z" "+00:00")
        else none
    match fromAttr with
    | some iso => some iso
    | none =>
      if date_text ≠ "" then _parse_spanish_date date_text else none

/-- One image strategy (crhoy_scraper.py lines 423-430): the loop breaks on a
truthy src attribute. -/
def imageCandidate (pg : Page) (sel : String) : Option String :=
  match pg.cssAttr sel "src" with
  | none => none
  | some src => if src ≠ "" then some src else none

/-- Split at the first occurrence of a separator. -/
def splitOnceList (sep : List Char) : List Char → Option (List Char × List Char)
  | [] => none
  | c :: t =>
    if sep.isPrefixOf (c :: t) then some ([], (c :: t).drop sep.length)
    else
      match splitOnceList sep t with
      | some (a, b) => some (c :: a, b)
      | none => none

/-- urllib.parse.urlparse restricted to what the pipeline reads: the netloc
and the path of a scheme://netloc/path URL. -/
def pyUrlparse (url : String) : String × String :=
  match splitOnceList "://".data url.data with
  | none => ("", String.mk (url.data.takeWhile (fun c => c ≠ '?' && c ≠ '#')))
  | some (_, rest) =>
    let netloc := rest.takeWhile (fun c => c ≠ '/' && c ≠ '?' && c ≠ '#')
    let after := rest.drop netloc.length
    let path := after.takeWhile (fun c => c ≠ '?' && c ≠ '#')
    (String.mk netloc, String.mk path)

/-- Category extraction (crhoy_scraper.py lines 433-444): first non-empty
path segment, mapped through the vocabulary or title-cased. -/
def categoryFromUrl (url : String) : String :=
  let path_parts := ((pyUrlparse url).2.splitOn "/").filter (fun p => p ≠ "")
  match path_parts with
  | [] => "General"
  | p :: _ =>
    let potential := pyLower p
    match lookupStr category_mapping potential with
    | some c => c
    | none => pyTitle potential

/-- Summary extraction (crhoy_scraper.py lines 413-417): the description meta
content, or the documented 200-character truncation of the body. -/
def summaryOf (pg : Page) (content : String) : String :=
  match pg.metaDescription with
  | some c => c
  | none => if 200 < content.length then pyTake content 200 ++ "..." else content

/-- Published-date extraction (crhoy_scraper.py lines 377-410): the primary
fecha-nota text through the Spanish parser, then the fallback chain, then
the capture-time default. -/
def publishedOf (pg : Page) : String :=
  let primary : Option String :=
    match pg.fechaNota with
    | none => none
    | some raw => _parse_spanish_date (pyReplace (pyStrip raw) "\u2003" " ")
  let viaChain : Option String :=
    match primary with
    | some d => some d
    | none => strategyChain (date_selectors.map (dateCandidate pg))
  match viaChain with
  | some d => d
  | none => pg.nowIso

/-- The paragraph join of the body extraction (crhoy_scraper.py lines
306-311): strip each paragraph, keep the truthy ones, join with blank
lines. -/
def joinParas (paras : List String) : String :=
  joinSep "\n\n" ((paras.map pyStrip).filter (fun t => t ≠ ""))

/-- Embedding of _safe_scrape_single_article (crhoy_scraper.py lines
279-470): blocked pages and pages without a title or body yield none, every
optional field degrades to its default, and the final validation rejects an
empty title, an empty body and a body of fewer than 20 words before the
record is built. -/
def _safe_scrape_single_article (pg : Page) (url : String) : Option Article :=
  if pg.blocked then none
  else
    match pg.h1Text with
    | none => none
    | some rawH1 =>
      let h1 := pyStrip rawH1
      match pg.contenidoParas with
      | none => none
      | some paras =>
        let content := joinParas paras
        let subtitle := match pg.h2Text with | some t => pyStrip t | none => ""
        let author1 :=
          match pg.autorNotaLink with
          | none => ""
          | some (titleAttr, txt) =>
            match titleAttr with
            | some t => if t ≠ "" then t else pyStrip txt
            | none => pyStrip txt
        let author :=
          if author1 = "" then
            match strategyChain (author_selectors.map (authorCandidate pg)) with
            | some a => a
            | none => ""
          else author1
        let author_email :=
          match strategyChain (email_selectors.map (emailCandidate pg)) with
          | some e => e
          | none => ""
        let tags :=
          match strategyChain (tag_selectors.map (tagsCandidate pg)) with
          | some ts => ts
          | none => []
        let published_date := publishedOf pg
        let summary := summaryOf pg content
        let image_url :=
          match strategyChain (img_selectors.map (imageCandidate pg)) with
          | some i => i
          | none => ""
        let category := categoryFromUrl url
        if h1 = "" ∨ content = "" ∨ (pySplit content).length < 20 then none
        else
          some { title := h1, subtitle := subtitle, content := content,
                 author := author, author_email := author_email, tags := tags,
                 published_date := published_date, url := url,
                 source := (pyUrlparse url).1, summary := summary,
                 image_url := image_url, category := category }

/-! ### crhoy_scraper.py: the per-day orchestrator -/

/-- Embedding of get_crhoy_articles_with_driver (crhoy_scraper.py lines
472-597).  The sitemap response and the rendered pages are the inputs; a
raise_for_status error or a blocked sitemap yields no articles; otherwise
the url list is truncated to the per-day limit when one is set and each url
goes through the pipeline, collecting the records that scrape successfully.
Sleeps, memory cleanup and driver recreation do not affect the collected
list.  Callers pass a positive limit or none (main.py line 97). -/
def get_crhoy_articles_with_driver (pages : String → Page)
    (sitemapResp : Response) (limit : Option Nat) : List Article :=
  if 400 ≤ sitemapResp.status_code then []
  else if _is_blocked_response sitemapResp then []
  else
    let urls := pySplitlines (pyStrip sitemapResp.text)
    let urls_to_fetch :=
      match limit with
      | some l => urls.take l
      | none => urls
    urls_to_fetch.filterMap (fun url => _safe_scrape_single_article (pages url) url)

/-! ### main.py: the CLI entry point

Argument parsing outcomes and the run environment are explicit inputs:
whether the DatabaseWriter constructor succeeds (environment credentials
present and the client connects) and what the scraping phase does.  argparse
errors (violated mutually exclusive required group, parser.error calls) end
the process with exit code 2 before any work, modelled as that exit code
with no scraping attempted. -/

/-- Parsed command-line arguments of main.py. -/
structure Args where
  date : Option String
  start_date : Option String
  end_date : Option String
  limit : Int
  dry_run : Bool

/-- What the scraping phase does once entered. -/
inductive ScrapeOutcome where
  /-- Scraping finished and produced these articles. -/
  | ok : List Article → ScrapeOutcome
  /-- The user interrupted the run (KeyboardInterrupt). -/
  | interrupted : ScrapeOutcome
  /-- An unexpected exception escaped. -/
  | error : ScrapeOutcome

/-- Exit code of the process together with whether the scraping phase was
ever entered. -/
structure MainResult where
  exitCode : Nat
  scrapeAttempted : Bool
deriving DecidableEq, Repr

/-- The strptime format directives for a 4-digit year, a 1-2 digit month and
a 1-2 digit day separated by hyphens. -/
def ymdItems : List RItem :=
  [.cls isDigitChar 4 (some 4) (some 1), .lit '-',
   .cls isDigitChar 1 (some 2) (some 2), .lit '-',
   .cls isDigitChar 1 (some 2) (some 3)]

/-- datetime.strptime(s, the dashed year-month-day format): the whole string
must be consumed and the fields must form a valid date. -/
def strptimeYmd (s : String) : Option (Nat × Nat × Nat) :=
  match matchItems ymdItems s.data with
  | none => none
  | some (caps, rest) =>
    if rest ≠ [] then none
    else
      let y := digitsToNat (capGet caps 1)
      let mo := digitsToNat (capGet caps 2)
      let d := digitsToNat (capGet caps 3)
      if 1 ≤ y ∧ 1 ≤ mo ∧ mo ≤ 12 ∧ 1 ≤ d ∧ d ≤ daysInMonth y mo then
        some (y, mo, d)
      else none

/-- Embedding of validate_date_format (main.py lines 14-20). -/
def validate_date_format (s : String) : Bool := (strptimeYmd s).isSome

/-- Strict ordering of parsed dates, the start_dt > end_dt comparison. -/
def ymdGt : Option (Nat × Nat × Nat) → Option (Nat × Nat × Nat) → Bool
  | some (y1, m1, d1), some (y2, m2, d2) =>
    decide (y2 < y1 ∨ (y1 = y2 ∧ (m2 < m1 ∨ (m1 = m2 ∧ d2 < d1))))
  | _, _ => false

/-- Body of the run after argument validation (main.py lines 109-172): the
database connection is established before any scraping unless dry_run is
set, and its failure returns 1 with no scraping attempted; then the scrape
phase runs, interruption returns 130, an unexpected error 1, and completion
returns 0 whether or not any articles were found (the save-batch results do
not influence the exit code). -/
def mainBody (dry_run dbConnects : Bool) (scrape : ScrapeOutcome) : MainResult :=
  if ¬ dry_run ∧ ¬ dbConnects then ⟨1, false⟩
  else
    match scrape with
    | .interrupted => ⟨130, true⟩
    | .error => ⟨1, true⟩
    | .ok articles => if articles.isEmpty then ⟨0, true⟩ else ⟨0, true⟩

/-- Embedding of main (main.py lines 22-181): the argparse group demands
exactly one of the date and start_date options, every malformed or
inconsistent date argument ends with parser.error (process exit 2) before
the run body starts. -/
def main (args : Args) (dbConnects : Bool) (scrape : ScrapeOutcome) : MainResult :=
  if args.date.isSome = args.start_date.isSome then ⟨2, false⟩
  else
    match args.date with
    | some d =>
      if validate_date_format d then mainBody args.dry_run dbConnects scrape
      else ⟨2, false⟩
    | none =>
      match args.start_date with
      | none => ⟨2, false⟩
      | some sd =>
        match args.end_date with
        | none => ⟨2, false⟩
        | some ed =>
          if ¬ validate_date_format sd then ⟨2, false⟩
          else if ¬ validate_date_format ed then ⟨2, false⟩
          else if ymdGt (strptimeYmd sd) (strptimeYmd ed) then ⟨2, false⟩
          else mainBody args.dry_run dbConnects scrape

/-! ### Concrete fixtures used by witness and counterexample evaluations -/

/-- A 20-word body, the minimum the pipeline validation accepts. -/
def goodContent : String :=
  "uno dos tres cuatro cinco seis siete ocho nueve diez once doce trece catorce quince dieciseis diecisiete dieciocho diecinueve veinte"

/-- A record that passes both the pipeline and the persistence validation. -/
def goodArticle : Article where
  title := "Nota de prueba"
  subtitle := ""
  content := goodContent
  author := ""
  author_email := ""
  tags := []
  published_date := "2024-06-01T00:00:00"
  url := "https://www.crhoy.com/nacionales/nota-1"
  source := "www.crhoy.com"
  summary := ""
  image_url := ""
  category := "Nacionales"

/-- A record whose body has five words, below the ten-word persistence
threshold: it fails DatabaseWriter.validate_article. -/
def shortArticle : Article :=
  { goodArticle with
    content := "cinco palabras nada mas aqui"
    url := "https://www.crhoy.com/nacionales/nota-corta" }

/-- A rendered page with a title and a 20-word body and nothing else. -/
def goodPage : Page where
  blocked := false
  h1Text := some "Titular de prueba"
  contenidoParas := some [goodContent]
  h2Text := none
  autorNotaLink := none
  css := fun _ => none
  cssAttr := fun _ _ => none
  cssAll := fun _ => []
  fechaNota := none
  metaDescription := none
  nowIso := "2024-06-01T00:00:00"

/-- The same page with the blocking detector firing. -/
def blockedPage : Page := { goodPage with blocked := true }

/-- The same page with the h1 lookup raising. -/
def noTitlePage : Page := { goodPage with h1Text := none }

/-- A sitemap response listing five article urls, long and clean enough not
to trip the blocking heuristics. -/
def sitemapFive : Response where
  status_code := 200
  text := "https://www.crhoy.com/nacionales/nota-1\nhttps://www.crhoy.com/nacionales/nota-2\nhttps://www.crhoy.com/nacionales/nota-3\nhttps://www.crhoy.com/nacionales/nota-4\nhttps://www.crhoy.com/nacionales/nota-5"

/-- Every url renders to the good page. -/
def allGoodPages : String → Page := fun _ => goodPage

/-! ## Theorems -/

/-! ### The batch loop: shared lemmas -/

theorem batchStep_sum (acc : BatchResults × List String) (a : Article) :
    sumCounts (batchStep acc a).1 = sumCounts acc.1 + 1 := by
  obtain ⟨r, store⟩ := acc
  by_cases hdup : a.url ≠ "" ∧ a.url ∈ store
  · simp [batchStep, hdup, sumCounts]
    omega
  · by_cases hval : validate_article a = true
    · simp [batchStep, save_article_to_supabase, hdup, hval, sumCounts]
      omega
    · simp [batchStep, save_article_to_supabase, hdup, hval, sumCounts]
      omega

theorem batchStep_store (acc : BatchResults × List String) (a : Article) :
    (batchStep acc a).2 = acc.2 ∨
    ((batchStep acc a).2 = acc.2 ++ [a.url] ∧ a.url ∉ acc.2) := by
  obtain ⟨r, store⟩ := acc
  by_cases hdup : a.url ≠ "" ∧ a.url ∈ store
  · left
    simp [batchStep, hdup]
  · by_cases hval : validate_article a = true
    · right
      constructor
      · simp [batchStep, save_article_to_supabase, hdup, hval]
      · simp only []
        by_cases hu : a.url = ""
        · intro hmem
          have : a.url ≠ "" := by
            have hv := hval
            unfold validate_article at hv
            by_cases ht : a.title = "" ∨ a.content = "" ∨ a.url = ""
            · simp [ht] at hv
            · push_neg at ht
              exact ht.2.2
          exact this hu
        · intro hmem
          exact hdup ⟨hu, hmem⟩
    · left
      simp [batchStep, save_article_to_supabase, hdup, hval]

theorem batchGo_sum (articles : List Article) :
    ∀ acc : BatchResults × List String,
      sumCounts (batchGo articles acc).1 = sumCounts acc.1 + articles.length := by
  induction articles with
  | nil => intro acc; simp [batchGo]
  | cons a rest ih =>
    intro acc
    have h1 := batchStep_sum acc a
    simp only [batchGo, List.length_cons]
    rw [ih (batchStep acc a), h1]
    omega

theorem batchStep_count_le (acc : BatchResults × List String) (a : Article)
    (u : String) :
    (batchStep acc a).2.count u ≤ max (acc.2.count u) 1 := by
  rcases batchStep_store acc a with h | ⟨h, hnm⟩
  · rw [h]
    exact le_max_left _ _
  · rw [h, List.count_append]
    by_cases hu : u = a.url
    · have h0 : acc.2.count a.url = 0 := by simpa using List.count_eq_zero.mpr hnm
      rw [hu, h0]
      simp
    · have h1 : ([a.url] : List String).count u = 0 := by
        simp [List.count_singleton']
        intro hc
        exact absurd hc.symm hu
      rw [h1]
      simp

theorem batchStep_mem (acc : BatchResults × List String) (a : Article)
    (u : String) (h : u ∈ acc.2) : u ∈ (batchStep acc a).2 := by
  rcases batchStep_store acc a with hs | ⟨hs, _⟩
  · rwa [hs]
  · rw [hs]
    exact List.mem_append_left _ h

theorem batchStep_count_mem (acc : BatchResults × List String) (a : Article)
    (u : String) (h : u ∈ acc.2) :
    (batchStep acc a).2.count u = acc.2.count u := by
  rcases batchStep_store acc a with hs | ⟨hs, hnm⟩
  · rw [hs]
  · rw [hs, List.count_append]
    have hu : u ≠ a.url := fun he => hnm (he ▸ h)
    have h1 : ([a.url] : List String).count u = 0 := by
      simp [List.count_singleton']
      intro hc
      exact absurd hc.symm hu
    rw [h1]
    simp

theorem batchGo_count_le (articles : List Article) :
    ∀ (acc : BatchResults × List String) (u : String),
      (batchGo articles acc).2.count u ≤ max (acc.2.count u) 1 := by
  induction articles with
  | nil => intro acc u; simp [batchGo]
  | cons a rest ih =>
    intro acc u
    have h1 := batchStep_count_le acc a u
    have h2 := ih (batchStep acc a) u
    simp only [batchGo]
    calc (batchGo rest (batchStep acc a)).2.count u
        ≤ max ((batchStep acc a).2.count u) 1 := h2
      _ ≤ max (max (acc.2.count u) 1) 1 := by
          exact max_le_max h1 (le_refl 1)
      _ = max (acc.2.count u) 1 := by
          rw [max_assoc, max_self]

theorem batchGo_count_mem (articles : List Article) :
    ∀ (acc : BatchResults × List String) (u : String), u ∈ acc.2 →
      (batchGo articles acc).2.count u = acc.2.count u := by
  induction articles with
  | nil => intro acc u _; simp [batchGo]
  | cons a rest ih =>
    intro acc u hmem
    simp only [batchGo]
    rw [ih (batchStep acc a) u (batchStep_mem acc a u hmem),
      batchStep_count_mem acc a u hmem]

/-- C10.  For every input list, the four counters of the batch result
partition the input: success + failed + duplicates + invalid equals the
number of articles handed to save_articles_batch, each article having been
routed to exactly one branch of the loop. -/
theorem save_articles_batch_counts_partition (store : List String)
    (articles : List Article) :
    (save_articles_batch store articles).1.success +
      (save_articles_batch store articles).1.failed +
      (save_articles_batch store articles).1.duplicates +
      (save_articles_batch store articles).1.invalid = articles.length := by
  have h := batchGo_sum articles (⟨0, 0, 0, 0⟩, store)
  simp [sumCounts, save_articles_batch] at h ⊢
  omega

/-- C1.  The persistence gate inserts a row for a url at most once: the
final store never holds more rows with a url than the greater of its initial
multiplicity and one, a url that already has a row is never inserted again
(its multiplicity never changes), and a batch attempt for an article whose
url already has a row performs no insert and is counted as a duplicate. -/
theorem dedup_gate_inserts_at_most_once (store : List String)
    (articles : List Article) (a : Article) (u : String)
    (hmem : a.url ∈ store) (hne : a.url ≠ "") :
    (save_articles_batch store articles).2.count u ≤ max (store.count u) 1 ∧
    (u ∈ store → (save_articles_batch store articles).2.count u = store.count u) ∧
    (save_articles_batch store [a]).1 = ⟨0, 0, 1, 0⟩ ∧
    (save_articles_batch store [a]).2 = store := by
  refine ⟨batchGo_count_le articles (⟨0, 0, 0, 0⟩, store) u,
    fun hu => batchGo_count_mem articles (⟨0, 0, 0, 0⟩, store) u hu, ?_, ?_⟩
  · simp [save_articles_batch, batchGo, batchStep, hne, hmem]
  · simp [save_articles_batch, batchGo, batchStep, hne, hmem]

/-- Witness for C1: a second attempt with an identical url is reported as a
duplicate and leaves the single existing row alone. -/
theorem dedup_gate_witness :
    (goodArticle.url ∈ [goodArticle.url] ∧ goodArticle.url ≠ "") ∧
    (save_articles_batch [goodArticle.url] [goodArticle]).1 = ⟨0, 0, 1, 0⟩ ∧
    (save_articles_batch [goodArticle.url] [goodArticle]).2 = [goodArticle.url] ∧
    ([goodArticle.url] : List String).count goodArticle.url = 1 := by
  have h := dedup_gate_inserts_at_most_once [goodArticle.url] [goodArticle]
    goodArticle goodArticle.url (by decide) (by decide)
  exact ⟨⟨by decide, by decide⟩, h.2.2.1, h.2.2.2, by decide⟩

/-- C7, code behaviour at the failing input.  A record that fails the gate
validation (five-word body) is never inserted — the store is unchanged — but
the batch counts it under failed, not under invalid: the invalid counter is
initialised and never incremented anywhere in the loop. -/
theorem invalid_record_counted_as_failed :
    validate_article shortArticle = false ∧
    (save_articles_batch [] [shortArticle]).1 = ⟨0, 1, 0, 0⟩ ∧
    (save_articles_batch [] [shortArticle]).2 = [] := by
  refine ⟨by decide, by decide, by decide⟩

/-! ### The blocking detector -/

/-- C4.  The blocking detector classifies as blocked: every response with
status 403, 429 or 503 whatever its body; every 200 response whose body
contains captcha case-insensitively; and every response whose stripped body
is shorter than the 100-character minimum, keywords or not. -/
theorem blocking_detector_classification (r : Response) :
    (r.status_code = 403 ∨ r.status_code = 429 ∨ r.status_code = 503 →
      _is_blocked_response r = true) ∧
    (r.status_code = 200 → strContainsStr (pyLower r.text) "captcha" = true →
      _is_blocked_response r = true) ∧
    ((pyStrip r.text).length < 100 → _is_blocked_response r = true) := by
  refine ⟨?_, ?_, ?_⟩
  · intro h
    rcases h with h | h | h <;> simp [_is_blocked_response, respOk, h]
  · intro h200 hc
    have hany : blocking_indicators.any
        (fun ind => strContainsStr (pyLower r.text) ind) = true := by
      apply List.any_eq_true.mpr
      exact ⟨"captcha", by decide, hc⟩
    simp [_is_blocked_response, respOk, h200, hany]
  · intro hlen
    unfold _is_blocked_response
    split
    · rfl
    · split
      · rfl
      · split
        · rfl
        · simp [hlen]

/-- Witness for C4 at concrete responses: the three hard status codes, a 200
page with an uppercase captcha marker in a long body, and a 200 page with a
short clean body. -/
theorem blocking_detector_witness :
    _is_blocked_response ⟨403, "any body"⟩ = true ∧
    _is_blocked_response ⟨429, "any body"⟩ = true ∧
    _is_blocked_response ⟨503, "any body"⟩ = true ∧
    _is_blocked_response ⟨200, "Please solve this CAPTCHA to continue viewing the page; the rest of this body is long enough not to trip the short-response heuristic."⟩ = true ∧
    _is_blocked_response ⟨200, "short clean body"⟩ = true := by
  refine ⟨?_, ?_, ?_, ?_, ?_⟩
  · exact (blocking_detector_classification ⟨403, "any body"⟩).1 (Or.inl rfl)
  · exact (blocking_detector_classification ⟨429, "any body"⟩).1 (Or.inr (Or.inl rfl))
  · exact (blocking_detector_classification ⟨503, "any body"⟩).1 (Or.inr (Or.inr rfl))
  · exact (blocking_detector_classification ⟨200, "Please solve this CAPTCHA to continue viewing the page; the rest of this body is long enough not to trip the short-response heuristic."⟩).2.1 rfl (by decide)
  · exact (blocking_detector_classification ⟨200, "short clean body"⟩).2.2 (by decide)

/-! ### The strategy chain -/

theorem strategyChain_all_none_append {α : Type} (l : List (Option α)) :
    ∀ pre : List (Option α), (∀ x ∈ pre, x = none) →
      strategyChain (pre ++ l) = strategyChain l := by
  intro pre
  induction pre with
  | nil => intro _; rfl
  | cons x rest ih =>
    intro h
    have hx : x = none := h x (List.mem_cons_self x rest)
    subst hx
    simp only [List.cons_append, strategyChain]
    exact ih (fun y hy => h y (List.mem_cons_of_mem none hy))

/-- C8.  The fallback chain used for the author, author e-mail, tags, date
and image fields returns the first strategy hit in list order: when every
earlier strategy failed, the first hit is the result; the strategies after
the first hit never influence the outcome (they are not consulted); a
strategy failure — the swallowed exception or an empty result, both encoded
as none by the per-field candidates — just moves the chain on; and the chain
is empty-handed only when every strategy failed. -/
theorem strategy_chain_first_hit (pre post post2 xs : List (Option String))
    (v : String) (hpre : ∀ x ∈ pre, x = none) (hxs : ∀ x ∈ xs, x = none) :
    strategyChain (pre ++ some v :: post) = some v ∧
    strategyChain (pre ++ some v :: post) = strategyChain (pre ++ some v :: post2) ∧
    (∀ rest : List (Option String), strategyChain (none :: rest) = strategyChain rest) ∧
    strategyChain xs = none := by
  refine ⟨?_, ?_, fun rest => rfl, ?_⟩
  · rw [strategyChain_all_none_append _ pre hpre]
    rfl
  · rw [strategyChain_all_none_append _ pre hpre,
      strategyChain_all_none_append _ pre hpre]
    rfl
  · induction xs with
    | nil => rfl
    | cons x rest ih =>
      have hx : x = none := hxs x (List.mem_cons_self x rest)
      subst hx
      exact ih (fun y hy => hxs y (List.mem_cons_of_mem none hy))

/-- Witness for C8: with a failing first strategy, a hit on the second and a
differing third, the chain returns the second hit either way, and a chain of
only failures returns nothing. -/
theorem strategy_chain_witness :
    strategyChain ([none] ++ some "autor" :: [some "otro"]) = some "autor" ∧
    strategyChain ([none] ++ some "autor" :: [some "otro"]) =
      strategyChain ([none] ++ some "autor" :: [none]) ∧
    strategyChain ([none, none] : List (Option String)) = none := by
  have h := strategy_chain_first_hit [none] [some "otro"] [none] [none, none]
    "autor" (by decide) (by decide)
  exact ⟨h.1, h.2.1, h.2.2.2⟩

/-! ### The extraction pipeline -/

/-- C3.  The pipeline emits a record only when the stripped title is
non-empty and the joined body is non-empty with at least 20 words, and then
the record carries the extracted title and body verbatim; a blocked page, a
missing title element, a missing body element, and a failed final validation
each yield none — never a partial record. -/
theorem pipeline_fails_closed (pg : Page) (url : String) :
    (∀ a, _safe_scrape_single_article pg url = some a →
      ∃ rawH1 paras, pg.h1Text = some rawH1 ∧ pg.contenidoParas = some paras ∧
        a.title = pyStrip rawH1 ∧ a.content = joinParas paras ∧
        a.title ≠ "" ∧ a.content ≠ "" ∧ 20 ≤ (pySplit a.content).length) ∧
    (pg.blocked = true → _safe_scrape_single_article pg url = none) ∧
    (pg.h1Text = none → _safe_scrape_single_article pg url = none) ∧
    (pg.contenidoParas = none → _safe_scrape_single_article pg url = none) ∧
    (∀ rawH1 paras, pg.h1Text = some rawH1 → pg.contenidoParas = some paras →
      (pyStrip rawH1 = "" ∨ joinParas paras = "" ∨
        (pySplit (joinParas paras)).length < 20) →
      _safe_scrape_single_article pg url = none) := by
  refine ⟨?_, ?_, ?_, ?_, ?_⟩
  · intro a ha
    unfold _safe_scrape_single_article at ha
    by_cases hb : pg.blocked = true
    · simp [hb] at ha
    · rw [if_neg hb] at ha
      cases hh : pg.h1Text with
      | none => rw [hh] at ha; exact absurd ha (by simp)
      | some rawH1 =>
        rw [hh] at ha
        cases hc : pg.contenidoParas with
        | none => rw [hc] at ha; exact absurd ha (by simp)
        | some paras =>
          rw [hc] at ha
          simp only [] at ha
          by_cases hval : pyStrip rawH1 = "" ∨ joinParas paras = "" ∨
              (pySplit (joinParas paras)).length < 20
          · rw [if_pos hval] at ha
            exact absurd ha (by simp)
          · rw [if_neg hval] at ha
            push_neg at hval
            have he := Option.some_inj.mp ha
            subst he
            exact ⟨rawH1, paras, rfl, rfl, rfl, rfl, hval.1, hval.2.1, hval.2.2⟩
  · intro hb
    unfold _safe_scrape_single_article
    rw [if_pos hb]
  · intro hh
    unfold _safe_scrape_single_article
    rw [hh]
    split <;> rfl
  · intro hc
    unfold _safe_scrape_single_article
    rw [hc]
    cases pg.h1Text <;> split <;> rfl
  · intro rawH1 paras hh hc hval
    unfold _safe_scrape_single_article
    rw [hh, hc]
    by_cases hb : pg.blocked = true
    · rw [if_pos hb]
    · rw [if_neg hb]
      simp only []
      rw [if_pos hval]

/-- Witness for C3 at concrete pages: the blocked page and the page whose
title lookup raised both yield none, and the good page yields a record whose
title and body are the extracted values verbatim. -/
theorem pipeline_witness :
    (blockedPage.blocked = true ∧
      _safe_scrape_single_article blockedPage "https://www.crhoy.com/x" = none) ∧
    (noTitlePage.h1Text = none ∧
      _safe_scrape_single_article noTitlePage "https://www.crhoy.com/x" = none) ∧
    (_safe_scrape_single_article goodPage
      "https://www.crhoy.com/nacionales/nota-1").map Article.title =
        some "Titular de prueba" ∧
    (_safe_scrape_single_article goodPage
      "https://www.crhoy.com/nacionales/nota-1").map Article.content =
        some goodContent := by
  refine ⟨⟨by decide, ?_⟩, ⟨by decide, ?_⟩, by decide, by decide⟩
  · exact (pipeline_fails_closed blockedPage "https://www.crhoy.com/x").2.1 (by decide)
  · exact (pipeline_fails_closed noTitlePage "https://www.crhoy.com/x").2.2.1 (by decide)

/-! ### The per-day orchestrator -/

theorem length_filterMap_of_isSome {α β : Type} (f : α → Option β) :
    ∀ l : List α, (∀ x ∈ l, (f x).isSome) → (l.filterMap f).length = l.length := by
  intro l
  induction l with
  | nil => intro _; rfl
  | cons x rest ih =>
    intro h
    have hx := h x (List.mem_cons_self x rest)
    cases hopt : f x with
    | none => rw [hopt] at hx; simp at hx
    | some v =>
      simp only [List.filterMap_cons, hopt, List.length_cons]
      rw [ih (fun y hy => h y (List.mem_cons_of_mem x hy))]

/-- C5.  With a usable sitemap response, a positive per-day limit L makes the
orchestrator process exactly the first L sitemap urls: the collected records
are the successful scrapes of the truncated url list, never more than L, and
exactly min(n, L) when every page is extractable; without a limit every url
is processed; and handing the collected list to the persistence batch makes
at most L attempts (the four counters sum to at most L). -/
theorem per_day_limit_truncates (pages : String → Page) (sm : Response)
    (L : Nat) (store : List String) (hL : 0 < L)
    (hok : sm.status_code < 400) (hnb : _is_blocked_response sm = false) :
    get_crhoy_articles_with_driver pages sm (some L) =
      ((pySplitlines (pyStrip sm.text)).take L).filterMap
        (fun url => _safe_scrape_single_article (pages url) url) ∧
    (get_crhoy_articles_with_driver pages sm (some L)).length ≤ L ∧
    ((∀ url ∈ pySplitlines (pyStrip sm.text),
        (_safe_scrape_single_article (pages url) url).isSome) →
      (get_crhoy_articles_with_driver pages sm (some L)).length =
        min (pySplitlines (pyStrip sm.text)).length L) ∧
    get_crhoy_articles_with_driver pages sm none =
      (pySplitlines (pyStrip sm.text)).filterMap
        (fun url => _safe_scrape_single_article (pages url) url) ∧
    sumCounts (save_articles_batch store
      (get_crhoy_articles_with_driver pages sm (some L))).1 ≤ L := by
  have hstat : ¬ 400 ≤ sm.status_code := by omega
  have heq : get_crhoy_articles_with_driver pages sm (some L) =
      ((pySplitlines (pyStrip sm.text)).take L).filterMap
        (fun url => _safe_scrape_single_article (pages url) url) := by
    unfold get_crhoy_articles_with_driver
    rw [if_neg hstat, if_neg (by simp [hnb])]
  have hlen : (get_crhoy_articles_with_driver pages sm (some L)).length ≤ L := by
    rw [heq]
    calc (((pySplitlines (pyStrip sm.text)).take L).filterMap
          (fun url => _safe_scrape_single_article (pages url) url)).length
        ≤ ((pySplitlines (pyStrip sm.text)).take L).length :=
          List.length_filterMap_le _ _
      _ ≤ L := List.length_take_le _ _
  refine ⟨heq, hlen, ?_, ?_, ?_⟩
  · intro hall
    rw [heq, length_filterMap_of_isSome _ _
      (fun u hu => hall u (List.mem_of_mem_take hu)), List.length_take]
    exact Nat.min_comm L _
  · unfold get_crhoy_articles_with_driver
    rw [if_neg hstat, if_neg (by simp [hnb])]
  · have h := batchGo_sum (get_crhoy_articles_with_driver pages sm (some L))
      (⟨0, 0, 0, 0⟩, store)
    unfold save_articles_batch
    rw [h]
    simpa [sumCounts] using hlen

set_option maxRecDepth 40000 in
/-- Witness for C5: five sitemap urls, every page extractable, limit three
yields exactly three records; no limit yields all five. -/
theorem per_day_limit_witness :
    (0 < 3 ∧ sitemapFive.status_code < 400 ∧
      _is_blocked_response sitemapFive = false) ∧
    (get_crhoy_articles_with_driver allGoodPages sitemapFive (some 3)).length = 3 ∧
    (get_crhoy_articles_with_driver allGoodPages sitemapFive none).length = 5 := by
  have h := per_day_limit_truncates allGoodPages sitemapFive 3 [] (by decide)
    (by decide) (by decide)
  have hall : ∀ url ∈ pySplitlines (pyStrip sitemapFive.text),
      (_safe_scrape_single_article (allGoodPages url) url).isSome := by decide
  refine ⟨⟨by decide, by decide, by decide⟩, ?_, ?_⟩
  · rw [h.2.2.1 hall]
    decide
  · rw [h.2.2.2.1]
    decide

/-! ### The 12-hour clock conversion -/

/-- C6.  Whenever a time pattern of _parse_spanish_date matches, the hour
goes through to24Hour: 12 am becomes hour 0, 12 pm stays hour 12, any other
pm hour gains 12 and any other am hour is unchanged — confirmed end to end
on the noon and midnight literals through both time pattern shapes. -/
theorem twelve_hour_conversion (h : Nat) (hlo : 1 ≤ h) (hhi : h ≤ 11) :
    to24Hour 12 "am" = 0 ∧ to24Hour 12 "pm" = 12 ∧
    to24Hour h "pm" = h + 12 ∧ to24Hour h "am" = h ∧
    _parse_spanish_date "Mayo 24, 2024 12:00 am" = some "2024-05-24T00:00:00" ∧
    _parse_spanish_date "Mayo 24, 2024 12:10 pm" = some "2024-05-24T12:10:00" ∧
    _parse_spanish_date "24 de Mayo de 2024, 11:10 pm" = some "2024-05-24T23:10:00" := by
  have hne : h ≠ 12 := by omega
  refine ⟨by decide, by decide, ?_, ?_, by decide, by decide, by decide⟩
  · simp [to24Hour, hne]
  · simp [to24Hour, hne]

/-- Witness for C6 at hour three. -/
theorem twelve_hour_witness :
    (1 ≤ 3 ∧ 3 ≤ 11) ∧ to24Hour 3 "pm" = 15 ∧ to24Hour 3 "am" = 3 := by
  have h := twelve_hour_conversion 3 (by decide) (by decide)
  exact ⟨⟨by decide, by decide⟩, h.2.2.1, h.2.2.2.1⟩

/-! ### The two date-normalization paths -/

/-- C2 counterexample: on the representative literal, the scraper-path Date
Normalizer _parse_spanish_date returns the naive local timestamp — with no
offset marker at all — and not the +6h UTC instant the claim requires. -/
theorem date_normalizer_counterexample :
    _parse_spanish_date "Mayo 24, 2024   11:10 pm" = some "2024-05-24T23:10:00" ∧
    "2024-05-24T23:10:00" ≠ "2024-05-25T05:10:00+00:00" ∧
    strContainsStr "2024-05-24T23:10:00" "+" = false := by
  refine ⟨by decide, by decide, by decide⟩

/-- C2 amended: only the range-save path normalize_date maps the
representative literal to the UTC instant of the documented +6h assumption;
the scraper path _parse_spanish_date yields naive local instants for every
one of its supported pattern classes. -/
theorem date_normalizer_two_paths :
    normalize_date "Mayo 24, 2024   11:10 pm" = some "2024-05-25T05:10:00+00:00" ∧
    _parse_spanish_date "Mayo 24, 2024   11:10 pm" = some "2024-05-24T23:10:00" ∧
    _parse_spanish_date "24 de Mayo de 2024, 11:10 pm" = some "2024-05-24T23:10:00" ∧
    _parse_spanish_date "Mayo 24, 2024" = some "2024-05-24T00:00:00" ∧
    _parse_spanish_date "24 de Mayo de 2024" = some "2024-05-24T00:00:00" ∧
    _parse_spanish_date "2024-05-24" = some "2024-05-24T00:00:00" ∧
    _parse_spanish_date "24/05/2024" = some "2024-05-24T00:00:00" := by
  refine ⟨by decide, by decide, by decide, by decide, by decide, by decide, by decide⟩

/-! ### The CLI entry point -/

/-- C9.  main returns 0 on normal completion, also when no articles were
found; a malformed date argument ends with the argparse error code 2 and a
failed database connection with 1, both before any scraping is attempted;
and a user interruption returns the distinct code 130. -/
theorem main_exit_codes (d bad : String) (arts : List Article)
    (sc : ScrapeOutcome) (hd : validate_date_format d = true)
    (hb : validate_date_format bad = false) :
    main ⟨some d, none, none, 5, false⟩ true (.ok []) = ⟨0, true⟩ ∧
    main ⟨some d, none, none, 5, false⟩ true (.ok arts) = ⟨0, true⟩ ∧
    main ⟨some bad, none, none, 5, false⟩ true sc = ⟨2, false⟩ ∧
    main ⟨some d, none, none, 5, false⟩ false sc = ⟨1, false⟩ ∧
    main ⟨some d, none, none, 5, false⟩ true .interrupted = ⟨130, true⟩ := by
  refine ⟨?_, ?_, ?_, ?_, ?_⟩
  · simp [main, mainBody, hd]
  · simp only [main, Option.isSome_some, Option.isSome_none]
    rw [if_neg (by simp)]
    simp only [hd, if_true]
    simp only [mainBody]
    rw [if_neg (by simp)]
    cases arts <;> simp
  · simp [main, hb]
  · simp [main, mainBody, hd]
  · simp [main, mainBody, hd]

/-- Witness for C9 at concrete arguments. -/
theorem main_exit_codes_witness :
    (validate_date_format "2024-05-29" = true ∧
      validate_date_format "not-a-date" = false) ∧
    main ⟨some "2024-05-29", none, none, 5, false⟩ true (.ok []) = ⟨0, true⟩ ∧
    main ⟨some "2024-05-29", none, none, 5, false⟩ true (.ok [goodArticle]) = ⟨0, true⟩ ∧
    main ⟨some "not-a-date", none, none, 5, false⟩ true .error = ⟨2, false⟩ ∧
    main ⟨some "2024-05-29", none, none, 5, false⟩ false .error = ⟨1, false⟩ ∧
    main ⟨some "2024-05-29", none, none, 5, false⟩ true .interrupted = ⟨130, true⟩ := by
  have h := main_exit_codes "2024-05-29" "not-a-date" [goodArticle] .error
    (by decide) (by decide)
  exact ⟨⟨by decide, by decide⟩, h.1, h.2.1, h.2.2.1, h.2.2.2.1, h.2.2.2.2⟩

end NewsWM
